import Mathlib

/-!
# fsa4480 driver entry points: lifecycle model

A shallow embedding of `fsa4480/Driver.c`: `DriverEntry`, `fsa4480EvtDeviceAdd`,
`fsa4480EvtDriverContextCleanup` and `fsa4480EvtDriverUnload`.

Every routine is a pure function that returns, next to its C result, the list of
externally visible events it emits in program order (framework calls, bus calls,
ACPI calls, WPP macros, and the one store to the device context).  The statuses
returned by the collaborators are supplied by an `Externals` record, so a theorem
quantified over that record holds for every outcome of every external call.
-/

namespace Fsa4480

/-! ## Basic types -/

/-- An NTSTATUS is a signed 32-bit value; only its sign and identity are used. -/
abbrev NTSTATUS := Int

/-- Pointers and framework handles are addresses. -/
abbrev PVOID := Nat

abbrev PDRIVER_OBJECT := Nat
abbrev PUNICODE_STRING := Nat
abbrev PWDFDEVICE_INIT := Nat
abbrev WDFOBJECT := Nat
abbrev WDFDEVICE := Nat
abbrev WDFDRIVER := Nat

/-- The null pointer. -/
def NULL : Nat := 0

def STATUS_SUCCESS : NTSTATUS := 0

/-- The value 0xC0000001 read as a signed 32-bit integer. -/
def STATUS_UNSUCCESSFUL : NTSTATUS := 0xC0000001 - 2 ^ 32

/-- The value 0xC000009A read as a signed 32-bit integer. -/
def STATUS_INSUFFICIENT_RESOURCES : NTSTATUS := 0xC000009A - 2 ^ 32

/-- The macro `NT_SUCCESS(Status)`, which is `((NTSTATUS)(Status)) >= 0`. -/
def NT_SUCCESS (Status : NTSTATUS) : Bool := decide (0 ≤ Status)

/-! ## Framework records built by DriverEntry -/

/-- The three callbacks `DriverEntry` hands to the framework. -/
inductive Callback where
  | fsa4480EvtDeviceAdd
  | fsa4480EvtDriverContextCleanup
  | fsa4480EvtDriverUnload
  deriving DecidableEq, Repr

/-- The one field of `WDF_OBJECT_ATTRIBUTES` that `DriverEntry` sets. -/
structure WDF_OBJECT_ATTRIBUTES where
  EvtCleanupCallback : Option Callback
  deriving DecidableEq, Repr

/-- The two fields of `WDF_DRIVER_CONFIG` that `DriverEntry` sets. -/
structure WDF_DRIVER_CONFIG where
  EvtDriverDeviceAdd : Option Callback
  EvtDriverUnload : Option Callback
  deriving DecidableEq, Repr

/-- The framework initialiser `WDF_OBJECT_ATTRIBUTES_INIT`: no callback set. -/
def WDF_OBJECT_ATTRIBUTES_INIT : WDF_OBJECT_ATTRIBUTES :=
  { EvtCleanupCallback := none }

/-- The framework initialiser `WDF_DRIVER_CONFIG_INIT(&config, EvtDriverDeviceAdd)`. -/
def WDF_DRIVER_CONFIG_INIT (EvtDriverDeviceAdd : Callback) : WDF_DRIVER_CONFIG :=
  { EvtDriverDeviceAdd := some EvtDriverDeviceAdd, EvtDriverUnload := none }

/-! ## Device context -/

/-- Modelled from the spec: the type `SPB_CONTEXT` is declared in the SPB helper
header, which is not among the sources.  Spec section 3 describes the bus session as
an "optional handle to the open serial-bus channel"; that handle is the only
content kept here. -/
structure SPB_CONTEXT where
  SpbIoTarget : Option Nat
  deriving DecidableEq, Repr

/-- The part of `ACPI_INTERFACE_STANDARD2` the cleanup routine reads: the `Context`
token passed to `UnregisterForDeviceNotifications`. -/
structure ACPI_INTERFACE_STANDARD2 where
  Context : PVOID
  deriving DecidableEq, Repr

/-- The fields of `DEVICE_CONTEXT` that `Driver.c` touches. -/
structure DEVICE_CONTEXT where
  I2CContext : SPB_CONTEXT
  AcpiInterface : ACPI_INTERFACE_STANDARD2
  RegisteredforNotification : Bool
  deriving DecidableEq, Repr

/-! ## Events -/

inductive TRACE_LEVEL where
  | TRACE_LEVEL_ERROR
  | TRACE_LEVEL_INFORMATION
  deriving DecidableEq, Repr

/-- The three format strings used with `TraceEvents` in `Driver.c`. -/
inductive TraceMessage where
  | FuncEntry
  | FuncExit
  | WdfDriverCreateFailed (status : NTSTATUS)
  deriving DecidableEq, Repr

/-- Externally visible actions, in the order the C statements perform them. -/
inductive Event where
  | WPP_INIT_TRACING (DriverObject : PDRIVER_OBJECT) (RegistryPath : PUNICODE_STRING)
  | WPP_CLEANUP (DriverObject : PDRIVER_OBJECT)
  | TraceEvents (level : TRACE_LEVEL) (message : TraceMessage)
  | WdfDriverCreate (DriverObject : PDRIVER_OBJECT) (RegistryPath : PUNICODE_STRING)
      (attributes : WDF_OBJECT_ATTRIBUTES) (config : WDF_DRIVER_CONFIG)
  | fsa4480CreateDevice (DeviceInit : PWDFDEVICE_INIT)
  | FSA4480UpdateSettings (Device : WDFDEVICE) (Register : Nat) (Value : Nat)
  | SpbTargetDeinitialize (FxDevice : WDFDEVICE) (SpbContext : SPB_CONTEXT)
  | UnregisterForDeviceNotifications (Context : PVOID)
  | StoreRegisteredforNotification (value : Bool)
  deriving DecidableEq, Repr

/-- Outcomes of the collaborators that `Driver.c` calls and does not define. -/
structure Externals where
  WdfDriverCreate : PDRIVER_OBJECT → PUNICODE_STRING → WDF_OBJECT_ATTRIBUTES →
    WDF_DRIVER_CONFIG → NTSTATUS
  fsa4480CreateDevice : PWDFDEVICE_INIT → NTSTATUS
  FSA4480UpdateSettings : WDFDEVICE → Nat → Nat → NTSTATUS
  SpbRelease : WDFDEVICE → SPB_CONTEXT → NTSTATUS
  UnregisterForDeviceNotifications : PVOID → NTSTATUS
  WdfDriverWdmGetDriverObject : WDFDRIVER → PDRIVER_OBJECT

/-- Modelled from the spec: the routine that releases the I2C target is defined in
the SPB helper module, which is not among the sources.  Spec section 4.2: close
"always succeeds from the caller's perspective (best-effort release); logs if the
underlying release reports an error but never propagates it"; section 4.1 step 3:
"close the bus session; clear busSession".  The status of the underlying release is
the first argument and has no influence on the result. -/
def SpbTargetDeinitialize (_underlying : NTSTATUS) (_FxDevice : WDFDEVICE)
    (SpbContext : SPB_CONTEXT) : SPB_CONTEXT :=
  { SpbContext with SpbIoTarget := none }

/-! ## The routines of Driver.c -/

/-- The `attributes` local of `DriverEntry` as passed to `WdfDriverCreate`:
`WDF_OBJECT_ATTRIBUTES_INIT(&attributes)` followed by
`attributes.EvtCleanupCallback = fsa4480EvtDriverContextCleanup`. -/
def entryAttributes : WDF_OBJECT_ATTRIBUTES :=
  { WDF_OBJECT_ATTRIBUTES_INIT with
    EvtCleanupCallback := some Callback.fsa4480EvtDriverContextCleanup }

/-- The `config` local of `DriverEntry` as passed to `WdfDriverCreate`:
`WDF_DRIVER_CONFIG_INIT(&config, fsa4480EvtDeviceAdd)` followed by
`config.EvtDriverUnload = fsa4480EvtDriverUnload`. -/
def entryConfig : WDF_DRIVER_CONFIG :=
  { WDF_DRIVER_CONFIG_INIT Callback.fsa4480EvtDeviceAdd with
    EvtDriverUnload := some Callback.fsa4480EvtDriverUnload }

/-- The routine `DriverEntry` (Driver.c lines 27-97). -/
def DriverEntry (ext : Externals) (DriverObject : PDRIVER_OBJECT)
    (RegistryPath : PUNICODE_STRING) : NTSTATUS × List Event :=
  -- WPP_INIT_TRACING(DriverObject, RegistryPath); TraceEvents(... "%!FUNC! Entry")
  let log0 : List Event :=
    [Event.WPP_INIT_TRACING DriverObject RegistryPath,
     Event.TraceEvents .TRACE_LEVEL_INFORMATION .FuncEntry]
  -- WDF_OBJECT_ATTRIBUTES_INIT(&attributes); attributes.EvtCleanupCallback = ...
  let attributes : WDF_OBJECT_ATTRIBUTES := entryAttributes
  -- WDF_DRIVER_CONFIG_INIT(&config, fsa4480EvtDeviceAdd); config.EvtDriverUnload = ...
  let config : WDF_DRIVER_CONFIG := entryConfig
  -- status = WdfDriverCreate(DriverObject, RegistryPath, &attributes, &config, ...)
  let status := ext.WdfDriverCreate DriverObject RegistryPath attributes config
  let log1 := log0 ++ [Event.WdfDriverCreate DriverObject RegistryPath attributes config]
  if !NT_SUCCESS status then
    -- TraceEvents(... "WdfDriverCreate failed"); WPP_CLEANUP(DriverObject); return status
    (status, log1 ++ [Event.TraceEvents .TRACE_LEVEL_ERROR (.WdfDriverCreateFailed status),
                     Event.WPP_CLEANUP DriverObject])
  else
    -- TraceEvents(... "%!FUNC! Exit"); return status
    (status, log1 ++ [Event.TraceEvents .TRACE_LEVEL_INFORMATION .FuncExit])

/-- The routine `fsa4480EvtDeviceAdd` (Driver.c lines 99-136).  The `Driver`
argument is unreferenced. -/
def fsa4480EvtDeviceAdd (ext : Externals) (_Driver : WDFDRIVER)
    (DeviceInit : PWDFDEVICE_INIT) : NTSTATUS × List Event :=
  let log0 : List Event := [Event.TraceEvents .TRACE_LEVEL_INFORMATION .FuncEntry]
  -- status = fsa4480CreateDevice(DeviceInit)
  let status := ext.fsa4480CreateDevice DeviceInit
  let log1 := log0 ++ [Event.fsa4480CreateDevice DeviceInit]
  let log2 := log1 ++ [Event.TraceEvents .TRACE_LEVEL_INFORMATION .FuncExit]
  (status, log2)

/-- The routine `fsa4480EvtDriverContextCleanup` (Driver.c lines 138-181).
`devContext` is the context memory that `DeviceGetContext(DriverObject)` points to;
the updated memory is returned.  The routine is `VOID`: there is no status in the
result.  None of the three collaborator statuses is read. -/
def fsa4480EvtDriverContextCleanup (ext : Externals) (DriverObject : WDFOBJECT)
    (devContext : DEVICE_CONTEXT) : DEVICE_CONTEXT × List Event :=
  let log0 : List Event := [Event.TraceEvents .TRACE_LEVEL_INFORMATION .FuncEntry]
  -- FSA4480UpdateSettings((WDFDEVICE)DriverObject, 0x18, 0x98);
  let _updateStatus := ext.FSA4480UpdateSettings DriverObject 0x18 0x98
  let log1 := log0 ++ [Event.FSA4480UpdateSettings DriverObject 0x18 0x98]
  -- SpbTargetDeinitialize((WDFDEVICE)DriverObject, &devContext->I2CContext);
  let released := SpbTargetDeinitialize (ext.SpbRelease DriverObject devContext.I2CContext)
    DriverObject devContext.I2CContext
  let log2 := log1 ++ [ Event.SpbTargetDeinitialize DriverObject devContext.I2CContext]
  let devContext1 : DEVICE_CONTEXT := { devContext with I2CContext := released }
  -- if (devContext->RegisteredforNotification) { ... }
  let afterIf : DEVICE_CONTEXT × List Event :=
    if devContext1.RegisteredforNotification then
      let ACPIInterface := devContext1.AcpiInterface
      -- ACPIInterface->UnregisterForDeviceNotifications(ACPIInterface->Context);
      let _unregisterStatus := ext.UnregisterForDeviceNotifications ACPIInterface.Context
      -- devContext->RegisteredforNotification = FALSE;
      ({ devContext1 with RegisteredforNotification := false },
       log2 ++ [Event.UnregisterForDeviceNotifications ACPIInterface.Context,
                Event.StoreRegisteredforNotification false])
    else
      (devContext1, log2)
  -- WPP_CLEANUP(NULL);
  (afterIf.1, afterIf.2 ++ [Event.WPP_CLEANUP NULL])

/-- The routine `fsa4480EvtDriverUnload` (Driver.c lines 183-210). -/
def fsa4480EvtDriverUnload (ext : Externals) (Driver : WDFDRIVER) : List Event :=
  [Event.WPP_CLEANUP (ext.WdfDriverWdmGetDriverObject Driver)]

/-- Dispatch of a registered callback name to the routine it denotes, for the
callbacks that take a driver or object handle and return nothing. -/
def runTeardownCallback (ext : Externals) (cb : Callback) (handle : Nat)
    (devContext : DEVICE_CONTEXT) : List Event :=
  match cb with
  | .fsa4480EvtDriverContextCleanup =>
      (fsa4480EvtDriverContextCleanup ext handle devContext).2
  | .fsa4480EvtDriverUnload => fsa4480EvtDriverUnload ext handle
  | .fsa4480EvtDeviceAdd => []

/-! ## Reading the event log -/

def isRegisterWrite : Event → Bool
  | .FSA4480UpdateSettings _ _ _ => true
  | _ => false

def isBusClose : Event → Bool
  | Event.SpbTargetDeinitialize _ _ => true
  | _ => false

def isUnregister : Event → Bool
  | .UnregisterForDeviceNotifications _ => true
  | _ => false

def isWppInit : Event → Bool
  | .WPP_INIT_TRACING _ _ => true
  | _ => false

def isWppCleanup : Event → Bool
  | .WPP_CLEANUP _ => true
  | _ => false

def isFlagStore : Event → Bool
  | .StoreRegisteredforNotification _ => true
  | _ => false

def isCreateDevice : Event → Bool
  | .fsa4480CreateDevice _ => true
  | _ => false

/-- A transport operation is a register write or a bus-session close. -/
def isTransportOp (e : Event) : Bool := isRegisterWrite e || isBusClose e

/-- The (address, value) pair of a register write. -/
def registerWriteArgs : Event → Option (Nat × Nat)
  | .FSA4480UpdateSettings _ reg val => some (reg, val)
  | _ => none

/-- Position of the first event satisfying `p`. -/
def firstIndex (p : Event → Bool) : List Event → Option Nat
  | [] => none
  | e :: es => if p e then some 0 else (firstIndex p es).map (· + 1)

/-- Both kinds of event occur, and the first `p` event is strictly earlier than the
first `q` event. -/
def issuedBefore (p q : Event → Bool) (log : List Event) : Bool :=
  match firstIndex p log, firstIndex q log with
  | some i, some j => decide (i < j)
  | _, _ => false

/-- Whether WPP tracing is active after a log, given whether it was active before. -/
def tracingActive : Bool → List Event → Bool
  | active, [] => active
  | _, .WPP_INIT_TRACING _ _ :: es => tracingActive true es
  | _, .WPP_CLEANUP _ :: es => tracingActive false es
  | active, _ :: es => tracingActive active es

/-! ## The spec's view of the device context -/

/-- The spec's `busSession`: the open channel held in `I2CContext`, if any. -/
def busSession (c : DEVICE_CONTEXT) : Option Nat := c.I2CContext.SpbIoTarget

/-- The spec's `isSubscribed`: the flag `RegisteredforNotification`. -/
def isSubscribed (c : DEVICE_CONTEXT) : Bool := c.RegisteredforNotification

/-- The spec's `notificationHandle`.  The driver keeps no separate handle: a
subscription is live exactly while `RegisteredforNotification` is set, and the token
that cancels it is `AcpiInterface.Context`. -/
def notificationHandle (c : DEVICE_CONTEXT) : Option PVOID :=
  if c.RegisteredforNotification then some c.AcpiInterface.Context else none

/-! ## The spec's wording of three teardown properties

These three predicates follow the text of the spec, not the code; they are compared
with the code in the theorems below. -/

/-- Spec section 8: the register write is issued before unsubscribe, and unsubscribe
before the close of the bus session. -/
def SpecTeardownOrder (log : List Event) : Prop :=
  issuedBefore isRegisterWrite isUnregister log = true ∧
    issuedBefore isUnregister isBusClose log = true

/-- Spec section 8: a second deactivate leaves the state of the first and performs no
transport operation and no subscription operation. -/
def SpecSecondCallIsNoOp (ext1 ext2 : Externals) (DriverObject : WDFOBJECT)
    (devContext : DEVICE_CONTEXT) : Prop :=
  (fsa4480EvtDriverContextCleanup ext2 DriverObject
      (fsa4480EvtDriverContextCleanup ext1 DriverObject devContext).1).1 =
    (fsa4480EvtDriverContextCleanup ext1 DriverObject devContext).1 ∧
  (fsa4480EvtDriverContextCleanup ext2 DriverObject
      (fsa4480EvtDriverContextCleanup ext1 DriverObject devContext).1).2.any
        isTransportOp = false ∧
  (fsa4480EvtDriverContextCleanup ext2 DriverObject
      (fsa4480EvtDriverContextCleanup ext1 DriverObject devContext).1).2.any
        isUnregister = false

/-- Spec sections 4.1 and 9: the register write is issued exactly when the context is
subscribed at entry. -/
def SpecWriteGated (ext : Externals) (DriverObject : WDFOBJECT)
    (devContext : DEVICE_CONTEXT) : Prop :=
  (fsa4480EvtDriverContextCleanup ext DriverObject devContext).2.any isRegisterWrite =
    devContext.RegisteredforNotification

/-! ## Sample inputs -/

/-- Collaborators that all report success. -/
def allSucceed : Externals where
  WdfDriverCreate := fun _ _ _ _ => STATUS_SUCCESS
  fsa4480CreateDevice := fun _ => STATUS_SUCCESS
  FSA4480UpdateSettings := fun _ _ _ => STATUS_SUCCESS
  SpbRelease := fun _ _ => STATUS_SUCCESS
  UnregisterForDeviceNotifications := fun _ => STATUS_SUCCESS
  WdfDriverWdmGetDriverObject := fun d => d

/-- Collaborators that all report failure. -/
def allFail : Externals where
  WdfDriverCreate := fun _ _ _ _ => STATUS_INSUFFICIENT_RESOURCES
  fsa4480CreateDevice := fun _ => STATUS_UNSUCCESSFUL
  FSA4480UpdateSettings := fun _ _ _ => STATUS_UNSUCCESSFUL
  SpbRelease := fun _ _ => STATUS_UNSUCCESSFUL
  UnregisterForDeviceNotifications := fun _ => STATUS_UNSUCCESSFUL
  WdfDriverWdmGetDriverObject := fun d => d

/-- An active context: open bus session 66, ACPI token 7, subscribed. -/
def activeContext : DEVICE_CONTEXT :=
  { I2CContext := { SpbIoTarget := some 66 },
    AcpiInterface := { Context := 7 },
    RegisteredforNotification := true }

/-- A context that never subscribed and has no bus session. -/
def idleContext : DEVICE_CONTEXT :=
  { I2CContext := { SpbIoTarget := none },
    AcpiInterface := { Context := 7 },
    RegisteredforNotification := false }

/-! ## What the cleanup routine emits -/

/-- The cleanup routine on a subscribed context: post-state and full event log. -/
theorem cleanup_subscribed (ext : Externals) (DriverObject : WDFOBJECT)
    (devContext : DEVICE_CONTEXT) (h : devContext.RegisteredforNotification = true) :
    fsa4480EvtDriverContextCleanup ext DriverObject devContext =
      ({ I2CContext := { SpbIoTarget := none },
         AcpiInterface := devContext.AcpiInterface,
         RegisteredforNotification := false },
       [Event.TraceEvents .TRACE_LEVEL_INFORMATION .FuncEntry,
        Event.FSA4480UpdateSettings DriverObject 0x18 0x98,
        Event.SpbTargetDeinitialize DriverObject devContext.I2CContext,
        Event.UnregisterForDeviceNotifications devContext.AcpiInterface.Context,
        Event.StoreRegisteredforNotification false,
        Event.WPP_CLEANUP NULL]) := by
  simp [fsa4480EvtDriverContextCleanup, SpbTargetDeinitialize, h]

/-- The cleanup routine on a context that is not subscribed. -/
theorem cleanup_not_subscribed (ext : Externals) (DriverObject : WDFOBJECT)
    (devContext : DEVICE_CONTEXT) (h : devContext.RegisteredforNotification = false) :
    fsa4480EvtDriverContextCleanup ext DriverObject devContext =
      ({ I2CContext := { SpbIoTarget := none },
         AcpiInterface := devContext.AcpiInterface,
         RegisteredforNotification := false },
       [Event.TraceEvents .TRACE_LEVEL_INFORMATION .FuncEntry,
        Event.FSA4480UpdateSettings DriverObject 0x18 0x98,
        Event.SpbTargetDeinitialize DriverObject devContext.I2CContext,
        Event.WPP_CLEANUP NULL]) := by
  simp [fsa4480EvtDriverContextCleanup, SpbTargetDeinitialize, h]

/-- The post-state of the cleanup routine, whatever the flag was. -/
theorem cleanup_state (ext : Externals) (DriverObject : WDFOBJECT)
    (devContext : DEVICE_CONTEXT) :
    (fsa4480EvtDriverContextCleanup ext DriverObject devContext).1 =
      { I2CContext := { SpbIoTarget := none },
        AcpiInterface := devContext.AcpiInterface,
        RegisteredforNotification := false } := by
  cases h : devContext.RegisteredforNotification
  · rw [cleanup_not_subscribed ext DriverObject devContext h]
  · rw [cleanup_subscribed ext DriverObject devContext h]

/-- The routine `DriverEntry` when `WdfDriverCreate` fails: result and event log. -/
theorem DriverEntry_failure (ext : Externals) (DriverObject : PDRIVER_OBJECT)
    (RegistryPath : PUNICODE_STRING)
    (h : NT_SUCCESS
      (ext.WdfDriverCreate DriverObject RegistryPath entryAttributes entryConfig) = false) :
    DriverEntry ext DriverObject RegistryPath =
      (ext.WdfDriverCreate DriverObject RegistryPath entryAttributes entryConfig,
       [Event.WPP_INIT_TRACING DriverObject RegistryPath,
        Event.TraceEvents .TRACE_LEVEL_INFORMATION .FuncEntry,
        Event.WdfDriverCreate DriverObject RegistryPath entryAttributes entryConfig,
        Event.TraceEvents .TRACE_LEVEL_ERROR (.WdfDriverCreateFailed
          (ext.WdfDriverCreate DriverObject RegistryPath entryAttributes entryConfig)),
        Event.WPP_CLEANUP DriverObject]) := by
  unfold DriverEntry
  simp only [h]
  rfl

/-- The routine `DriverEntry` when `WdfDriverCreate` succeeds: result and event log. -/
theorem DriverEntry_success (ext : Externals) (DriverObject : PDRIVER_OBJECT)
    (RegistryPath : PUNICODE_STRING)
    (h : NT_SUCCESS
      (ext.WdfDriverCreate DriverObject RegistryPath entryAttributes entryConfig) = true) :
    DriverEntry ext DriverObject RegistryPath =
      (ext.WdfDriverCreate DriverObject RegistryPath entryAttributes entryConfig,
       [Event.WPP_INIT_TRACING DriverObject RegistryPath,
        Event.TraceEvents .TRACE_LEVEL_INFORMATION .FuncEntry,
        Event.WdfDriverCreate DriverObject RegistryPath entryAttributes entryConfig,
        Event.TraceEvents .TRACE_LEVEL_INFORMATION .FuncExit]) := by
  unfold DriverEntry
  simp only [h]
  rfl

/-- The routine `DriverEntry` returns the status of `WdfDriverCreate` unchanged. -/
theorem DriverEntry_status (ext : Externals) (DriverObject : PDRIVER_OBJECT)
    (RegistryPath : PUNICODE_STRING) :
    (DriverEntry ext DriverObject RegistryPath).1 =
      ext.WdfDriverCreate DriverObject RegistryPath entryAttributes entryConfig := by
  cases h : NT_SUCCESS
      (ext.WdfDriverCreate DriverObject RegistryPath entryAttributes entryConfig)
  · rw [DriverEntry_failure ext DriverObject RegistryPath h]
  · rw [DriverEntry_success ext DriverObject RegistryPath h]

/-! ## Teardown: post-state -/

/-- Claim C1: for every device context and every outcome of the external calls, after
`fsa4480EvtDriverContextCleanup` the context is Inactive: the bus session is
released, there is no notification handle, and the context is not subscribed. -/
theorem cleanup_reaches_inactive (ext : Externals) (DriverObject : WDFOBJECT)
    (devContext : DEVICE_CONTEXT) :
    busSession (fsa4480EvtDriverContextCleanup ext DriverObject devContext).1 = none ∧
    notificationHandle
      (fsa4480EvtDriverContextCleanup ext DriverObject devContext).1 = none ∧
    isSubscribed
      (fsa4480EvtDriverContextCleanup ext DriverObject devContext).1 = false := by
  rw [cleanup_state]
  simp [busSession, notificationHandle, isSubscribed]

/-! ## Teardown: order of the calls -/

/-- Claim C2, refuted as stated: on the active sample context the log does not have
the spec's order, because the bus session is closed before the unsubscribe. -/
theorem cleanup_order_not_as_specified :
    ¬ SpecTeardownOrder (fsa4480EvtDriverContextCleanup allFail 1 activeContext).2 := by
  unfold SpecTeardownOrder
  decide

/-- Claim C2, amended: from a subscribed context, for every outcome of the external
calls, the register write, the bus-session close and the unsubscribe are each issued
once, the write before the close and the close before the unsubscribe (so the write
also precedes the unsubscribe, and the unsubscribe does not precede the close). -/
theorem cleanup_order_write_close_unsubscribe (ext : Externals) (DriverObject : WDFOBJECT)
    (devContext : DEVICE_CONTEXT) (h : devContext.RegisteredforNotification = true) :
    (fsa4480EvtDriverContextCleanup ext DriverObject devContext).2.filter
        (fun e => isRegisterWrite e || isBusClose e || isUnregister e) =
      [Event.FSA4480UpdateSettings DriverObject 0x18 0x98,
       Event.SpbTargetDeinitialize DriverObject devContext.I2CContext,
       Event.UnregisterForDeviceNotifications devContext.AcpiInterface.Context] ∧
    issuedBefore isRegisterWrite isBusClose
      (fsa4480EvtDriverContextCleanup ext DriverObject devContext).2 = true ∧
    issuedBefore isBusClose isUnregister
      (fsa4480EvtDriverContextCleanup ext DriverObject devContext).2 = true ∧
    issuedBefore isRegisterWrite isUnregister
      (fsa4480EvtDriverContextCleanup ext DriverObject devContext).2 = true ∧
    issuedBefore isUnregister isBusClose
      (fsa4480EvtDriverContextCleanup ext DriverObject devContext).2 = false := by
  rw [cleanup_subscribed ext DriverObject devContext h]
  simp [List.filter, issuedBefore, firstIndex, isRegisterWrite, isBusClose, isUnregister]

/-- Claim C2, amended, at the active sample context with every external call
failing. -/
theorem cleanup_order_write_close_unsubscribe_witness :
    activeContext.RegisteredforNotification = true ∧
    ((fsa4480EvtDriverContextCleanup allFail 1 activeContext).2.filter
        (fun e => isRegisterWrite e || isBusClose e || isUnregister e) =
      [Event.FSA4480UpdateSettings 1 0x18 0x98,
       Event.SpbTargetDeinitialize 1 activeContext.I2CContext,
       Event.UnregisterForDeviceNotifications activeContext.AcpiInterface.Context] ∧
    issuedBefore isRegisterWrite isBusClose
      (fsa4480EvtDriverContextCleanup allFail 1 activeContext).2 = true ∧
    issuedBefore isBusClose isUnregister
      (fsa4480EvtDriverContextCleanup allFail 1 activeContext).2 = true ∧
    issuedBefore isRegisterWrite isUnregister
      (fsa4480EvtDriverContextCleanup allFail 1 activeContext).2 = true ∧
    issuedBefore isUnregister isBusClose
      (fsa4480EvtDriverContextCleanup allFail 1 activeContext).2 = false) :=
  ⟨rfl, cleanup_order_write_close_unsubscribe allFail 1 activeContext rfl⟩

/-! ## Teardown: calling it twice -/

/-- Claim C3, refuted as stated: after a first cleanup of the active sample context, a
second cleanup is not free of transport operations. -/
theorem second_cleanup_not_a_no_op :
    ¬ SpecSecondCallIsNoOp allSucceed allSucceed 1 activeContext := by
  unfold SpecSecondCallIsNoOp
  decide

/-- Claim C3, amended: for every context and every outcome of the external calls in
both runs, a second cleanup leaves the post-state of the first and makes no
unregister call, but it issues the register write and the bus-session close again,
once each, the close on the already released session. -/
theorem cleanup_twice (ext1 ext2 : Externals) (DriverObject : WDFOBJECT)
    (devContext : DEVICE_CONTEXT) :
    (fsa4480EvtDriverContextCleanup ext2 DriverObject
        (fsa4480EvtDriverContextCleanup ext1 DriverObject devContext).1).1 =
      (fsa4480EvtDriverContextCleanup ext1 DriverObject devContext).1 ∧
    (fsa4480EvtDriverContextCleanup ext2 DriverObject
        (fsa4480EvtDriverContextCleanup ext1 DriverObject devContext).1).2.any
          isUnregister = false ∧
    (fsa4480EvtDriverContextCleanup ext2 DriverObject
        (fsa4480EvtDriverContextCleanup ext1 DriverObject devContext).1).2.filter
          isTransportOp =
      [Event.FSA4480UpdateSettings DriverObject 0x18 0x98,
       Event.SpbTargetDeinitialize DriverObject { SpbIoTarget := none }] := by
  have hflag : (fsa4480EvtDriverContextCleanup ext1 DriverObject
      devContext).1.RegisteredforNotification = false := by
    rw [cleanup_state]
  rw [cleanup_not_subscribed ext2 DriverObject _ hflag, cleanup_state]
  simp [List.filter, isTransportOp, isRegisterWrite, isBusClose, isUnregister]

/-! ## Teardown: the register write -/

/-- Claim C4, refuted as stated: on the idle sample context, which is not subscribed,
the register write is issued all the same. -/
theorem register_write_not_gated :
    ¬ SpecWriteGated allSucceed 1 idleContext := by
  unfold SpecWriteGated
  decide

/-- Claim C4, amended: the register write is not gated on the flag; for every context,
whichever value `RegisteredforNotification` has at entry, the cleanup issues exactly
one `FSA4480UpdateSettings` call. -/
theorem register_write_unconditional (ext : Externals) (DriverObject : WDFOBJECT)
    (devContext : DEVICE_CONTEXT) (flag : Bool) :
    (fsa4480EvtDriverContextCleanup ext DriverObject
        { devContext with RegisteredforNotification := flag }).2.countP
          isRegisterWrite = 1 := by
  cases flag
  · rw [cleanup_not_subscribed ext DriverObject _ rfl]
    simp [List.countP_cons, isRegisterWrite]
  · rw [cleanup_subscribed ext DriverObject _ rfl]
    simp [List.countP_cons, isRegisterWrite]

/-- Claim C7: every register write the cleanup issues is to address 0x18 with value
0x98; for every context and every outcome of the external calls the list of
(address, value) pairs written is exactly that one pair. -/
theorem register_write_fixed_pair (ext : Externals) (DriverObject : WDFOBJECT)
    (devContext : DEVICE_CONTEXT) :
    (fsa4480EvtDriverContextCleanup ext DriverObject devContext).2.filterMap
        registerWriteArgs = [(0x18, 0x98)] := by
  cases h : devContext.RegisteredforNotification
  · rw [cleanup_not_subscribed ext DriverObject devContext h]
    simp [List.filterMap, registerWriteArgs]
  · rw [cleanup_subscribed ext DriverObject devContext h]
    simp [List.filterMap, registerWriteArgs]

/-! ## Teardown: failures are not surfaced -/

/-- Claim C5: from a subscribed context, whatever the register write, the bus close
and the unsubscribe report, the cleanup performs every step (write, close,
unsubscribe, flag store, WPP cleanup) and its post-state and event log are the same
as under any other outcomes; the routine has no status to return. -/
theorem cleanup_best_effort (ext ext2 : Externals) (DriverObject : WDFOBJECT)
    (devContext : DEVICE_CONTEXT) (h : devContext.RegisteredforNotification = true) :
    fsa4480EvtDriverContextCleanup ext DriverObject devContext =
      fsa4480EvtDriverContextCleanup ext2 DriverObject devContext ∧
    (fsa4480EvtDriverContextCleanup ext DriverObject devContext).2 =
      [Event.TraceEvents .TRACE_LEVEL_INFORMATION .FuncEntry,
       Event.FSA4480UpdateSettings DriverObject 0x18 0x98,
       Event.SpbTargetDeinitialize DriverObject devContext.I2CContext,
       Event.UnregisterForDeviceNotifications devContext.AcpiInterface.Context,
       Event.StoreRegisteredforNotification false,
       Event.WPP_CLEANUP NULL] := by
  rw [cleanup_subscribed ext DriverObject devContext h,
    cleanup_subscribed ext2 DriverObject devContext h]
  exact ⟨rfl, rfl⟩

/-- Claim C5 at the active sample context: all calls failing against all calls
succeeding. -/
theorem cleanup_best_effort_witness :
    activeContext.RegisteredforNotification = true ∧
    (fsa4480EvtDriverContextCleanup allFail 1 activeContext =
      fsa4480EvtDriverContextCleanup allSucceed 1 activeContext ∧
    (fsa4480EvtDriverContextCleanup allFail 1 activeContext).2 =
      [Event.TraceEvents .TRACE_LEVEL_INFORMATION .FuncEntry,
       Event.FSA4480UpdateSettings 1 0x18 0x98,
       Event.SpbTargetDeinitialize 1 activeContext.I2CContext,
       Event.UnregisterForDeviceNotifications activeContext.AcpiInterface.Context,
       Event.StoreRegisteredforNotification false,
       Event.WPP_CLEANUP NULL]) :=
  ⟨rfl, cleanup_best_effort allFail allSucceed 1 activeContext rfl⟩

/-! ## Teardown: the unsubscribe -/

/-- Claim C6: if `RegisteredforNotification` is set at entry, the cleanup calls
`UnregisterForDeviceNotifications` exactly once, with `AcpiInterface.Context`, and
next stores false in the flag; if it is clear at entry, there is no unregister call
and no store; either way the flag is false afterwards. -/
theorem unsubscribe_exactly_when_subscribed (ext : Externals) (DriverObject : WDFOBJECT)
    (devContext : DEVICE_CONTEXT) :
    (fsa4480EvtDriverContextCleanup ext DriverObject devContext).2.filter
        (fun e => isUnregister e || isFlagStore e) =
      (if devContext.RegisteredforNotification then
        [Event.UnregisterForDeviceNotifications devContext.AcpiInterface.Context,
         Event.StoreRegisteredforNotification false]
       else []) ∧
    (fsa4480EvtDriverContextCleanup ext DriverObject
        devContext).1.RegisteredforNotification = false := by
  cases h : devContext.RegisteredforNotification
  · rw [cleanup_not_subscribed ext DriverObject devContext h]
    simp [List.filter, isUnregister, isFlagStore]
  · rw [cleanup_subscribed ext DriverObject devContext h]
    simp [List.filter, isUnregister, isFlagStore]

/-! ## DriverEntry and EvtDeviceAdd -/

/-- Claim C8, evaluated where it fails: when `WdfDriverCreate` reports
STATUS_INSUFFICIENT_RESOURCES, a failure status, `DriverEntry` returns that status
and not STATUS_UNSUCCESSFUL. -/
theorem DriverEntry_status_on_insufficient_resources :
    NT_SUCCESS (allFail.WdfDriverCreate 1 2 entryAttributes entryConfig) = false ∧
    (DriverEntry allFail 1 2).1 = STATUS_INSUFFICIENT_RESOURCES ∧
    (DriverEntry allFail 1 2).1 ≠ STATUS_UNSUCCESSFUL := by
  decide

/-- Claim C9: `fsa4480EvtDeviceAdd` calls `fsa4480CreateDevice` exactly once, with the
given `DeviceInit`, and returns exactly the status of that call, so it succeeds if
and only if that call succeeded. -/
theorem EvtDeviceAdd_returns_CreateDevice_status (ext : Externals) (Driver : WDFDRIVER)
    (DeviceInit : PWDFDEVICE_INIT) :
    (fsa4480EvtDeviceAdd ext Driver DeviceInit).1 = ext.fsa4480CreateDevice DeviceInit ∧
    NT_SUCCESS (fsa4480EvtDeviceAdd ext Driver DeviceInit).1 =
      NT_SUCCESS (ext.fsa4480CreateDevice DeviceInit) ∧
    (fsa4480EvtDeviceAdd ext Driver DeviceInit).2.filter isCreateDevice =
      [Event.fsa4480CreateDevice DeviceInit] := by
  simp [fsa4480EvtDeviceAdd, List.filter, isCreateDevice]

/-- Claim C10: in `DriverEntry` the first event is the one WPP_INIT_TRACING; a
WPP_CLEANUP is issued exactly when `WdfDriverCreate` fails, then once, with the
DriverObject, as the last event; tracing is still active on return exactly on
success; and the callbacks registered with `WdfDriverCreate`, the context cleanup and
the unload routine, each end with tracing stopped. -/
theorem DriverEntry_tracing_balanced (ext : Externals) (DriverObject : PDRIVER_OBJECT)
    (RegistryPath : PUNICODE_STRING) :
    (DriverEntry ext DriverObject RegistryPath).2.head? =
      some (Event.WPP_INIT_TRACING DriverObject RegistryPath) ∧
    (DriverEntry ext DriverObject RegistryPath).2.countP isWppInit = 1 ∧
    (DriverEntry ext DriverObject RegistryPath).2.filter isWppCleanup =
      (if NT_SUCCESS
          (ext.WdfDriverCreate DriverObject RegistryPath entryAttributes entryConfig)
        then [] else [Event.WPP_CLEANUP DriverObject]) ∧
    (DriverEntry ext DriverObject RegistryPath).2.getLast? =
      some (if NT_SUCCESS
          (ext.WdfDriverCreate DriverObject RegistryPath entryAttributes entryConfig)
        then Event.TraceEvents .TRACE_LEVEL_INFORMATION .FuncExit
        else Event.WPP_CLEANUP DriverObject) ∧
    tracingActive false (DriverEntry ext DriverObject RegistryPath).2 =
      NT_SUCCESS
        (ext.WdfDriverCreate DriverObject RegistryPath entryAttributes entryConfig) ∧
    (DriverEntry ext DriverObject RegistryPath).2.filterMap
        (fun e => match e with
          | .WdfDriverCreate _ _ attributes config =>
              some (attributes.EvtCleanupCallback, config.EvtDriverUnload)
          | _ => none) =
      [(some Callback.fsa4480EvtDriverContextCleanup,
        some Callback.fsa4480EvtDriverUnload)] ∧
    (∀ (handle : Nat) (devContext : DEVICE_CONTEXT),
      tracingActive true
        (runTeardownCallback ext Callback.fsa4480EvtDriverContextCleanup handle
          devContext) = false ∧
      tracingActive true
        (runTeardownCallback ext Callback.fsa4480EvtDriverUnload handle
          devContext) = false) := by
  have hcb : ∀ (handle : Nat) (devContext : DEVICE_CONTEXT),
      tracingActive true
        (runTeardownCallback ext Callback.fsa4480EvtDriverContextCleanup handle
          devContext) = false ∧
      tracingActive true
        (runTeardownCallback ext Callback.fsa4480EvtDriverUnload handle
          devContext) = false := by
    intro handle devContext
    constructor
    · cases h : devContext.RegisteredforNotification
      · simp [runTeardownCallback, cleanup_not_subscribed ext handle devContext h,
          tracingActive]
      · simp [runTeardownCallback, cleanup_subscribed ext handle devContext h,
          tracingActive]
    · simp [runTeardownCallback, fsa4480EvtDriverUnload, tracingActive]
  cases h : NT_SUCCESS
      (ext.WdfDriverCreate DriverObject RegistryPath entryAttributes entryConfig)
  · rw [DriverEntry_failure ext DriverObject RegistryPath h]
    simp [List.filter, List.filterMap, List.countP_cons, isWppInit, isWppCleanup,
      tracingActive, entryAttributes, entryConfig, hcb]
  · rw [DriverEntry_success ext DriverObject RegistryPath h]
    simp [List.filter, List.filterMap, List.countP_cons, isWppInit, isWppCleanup,
      tracingActive, entryAttributes, entryConfig, hcb]

end Fsa4480
